import Mathlib

/-!
Verification of the wbi-dashboard opportunity-pipeline client and BoE
cost-rollup code.  The JavaScript sources are shallowly embedded: each
handler's observable effect (DOM log lines, button wiring, polling
control) is a pure Lean function of the parsed response data; backend
behaviour that is absent from the repository is modelled from the spec
and marked as such in the doc comments.
-/

/-- JavaScript truthiness of a string-or-null value: null and the empty
string are falsy, every other string is truthy. -/
def jsTruthy : Option String → Bool
  | none => false
  | some s => !(s == "")

/-- A log entry of a pipeline status body: `{text, level, timestamp}`.
`timestamp` is optional, as in the wire contract. -/
structure LogEntry where
  text : String
  level : String
  timestamp : Option String
deriving DecidableEq

/- ----------------------------------------------------------------
   C1: polling control.
   ---------------------------------------------------------------- -/

/-- Observable effect of one round of the legacy (part_003)
`checkPipelineStatus` on a parsed status body: whether polling stops,
whether the run button is re-enabled, and the delay before the next
scheduled status request. -/
structure LegacyStatusStep where
  stopsPolling : Bool
  reEnablesRun : Bool
  nextPollDelayMs : Option Nat
deriving DecidableEq

/-- part_003 `checkPipelineStatus`, terminal dispatch: on
`completed`/`failed` it re-enables the run button and schedules no
further request; on any other status it schedules the next
`checkPipelineStatus` 3000 ms later. -/
def checkPipelineStatusStep (status : String) : LegacyStatusStep :=
  if status == "completed" || status == "failed" then
    { stopsPolling := true, reEnablesRun := true, nextPollDelayMs := none }
  else
    { stopsPolling := false, reEnablesRun := false, nextPollDelayMs := some 3000 }

/-- Observable polling control of `PipelineManager.processPipelineUpdate`
(pipeline.js): whether `handleCompletion` runs, which stops the interval
and re-enables the run button. -/
structure ModuleUpdateStep where
  stopsPolling : Bool
  reEnablesRun : Bool
deriving DecidableEq

/-- pipeline.js `processPipelineUpdate`: `handleCompletion` (which calls
`stopPolling` and `updateButtonState(false)`) runs exactly when the
reported status is `completed` or `failed`. -/
def processPipelineUpdateStep (status : String) : ModuleUpdateStep :=
  if status == "completed" || status == "failed" then
    { stopsPolling := true, reEnablesRun := true }
  else
    { stopsPolling := false, reEnablesRun := false }

/-- pipeline.js `startPolling`: the interval between status requests. -/
def pollingIntervalMs : Nat := 3000

/- ----------------------------------------------------------------
   C2: what the run-pipeline click handlers read from the POST
   /api/run-pipeline response body.
   ---------------------------------------------------------------- -/

/-- A parsed POST /api/run-pipeline response body.  Fields the server
may or may not include are optional; `log` is `none` when the body has
no `log` array at all (the spec-shaped `{job_id}` body). -/
structure RunPipelineResponse where
  job_id : Option String
  log : Option (List LogEntry)
  opps_report_filename : Option String
  match_report_filename : Option String
deriving DecidableEq

/-- Observable outcome of a run-pipeline click handler after the
response arrives: the innerHTML/text of each rendered log line, the
download-button wiring, whether the run button ends up enabled, and the
job id (if any) with which status polling is started. -/
structure RunClickOutcome where
  displayedLog : List String
  oppsWired : Bool
  matchWired : Bool
  runEnabled : Bool
  startsPollingWith : Option String
deriving DecidableEq

/-- One leftmost, non-overlapping split of a character list on the
two-character separator `**`. -/
def starSplit : List Char → List (List Char)
  | [] => [[]]
  | '*' :: '*' :: rest => [] :: starSplit rest
  | c :: rest =>
    match starSplit rest with
    | [] => [[c]]
    | s :: ss => (c :: s) :: ss

/-- The replacement text `<strong>$1</strong>` of main.js's bold-markup
substitution. -/
def strongWrap (inner : List Char) : List Char :=
  "<strong>".data ++ inner ++ "</strong>".data

/-- Pair up the `**` separators left to right: each consecutive pair of
segments is joined through `strongWrap`; a final unmatched `**` stays
literal, as with the regex `/\x2a\x2a(.*?)\x2a\x2a/g`. -/
def rebuildBold : List (List Char) → List Char
  | [] => []
  | [s] => s
  | [s, t] => s ++ '*' :: '*' :: t
  | s :: t :: rest => s ++ strongWrap t ++ rebuildBold rest

/-- main.js line 51: `msg.text.replace(/\x2a\x2a(.*?)\x2a\x2a/g,
'<strong>$1</strong>')`. -/
def boldMarkup (s : String) : String :=
  String.mk (rebuildBold (starSplit s.data))

/-- part_003 run-pipeline click handler: reads only `result.job_id`; a
truthy id starts `checkPipelineStatus(job_id)` polling and leaves the
run button disabled, otherwise an error line is shown and the button is
re-enabled.  Log entries and report filenames in the body are never
read. -/
def legacyRunHandler (r : RunPipelineResponse) : RunClickOutcome :=
  if jsTruthy r.job_id then
    { displayedLog := ["🚀 Starting pipeline..."]
      oppsWired := false, matchWired := false
      runEnabled := false, startsPollingWith := r.job_id }
  else
    { displayedLog := ["Error: Could not start pipeline job."]
      oppsWired := false, matchWired := false
      runEnabled := true, startsPollingWith := none }

/-- main.js run-pipeline click handler (lines 44-66): clears the log and
renders `result.log` with bold-markup substitution, then wires each
download button from the filenames in the same response body; it never
issues a status request.  When the body has no `log` array,
`result.log.forEach` throws and the catch branch replaces the log with
the error text; the finally branch re-enables the run button in every
case. -/
def mainJsRunHandler (r : RunPipelineResponse) : RunClickOutcome :=
  match r.log with
  | none =>
    { displayedLog := ["TypeError: Cannot read properties of undefined (reading 'forEach')"]
      oppsWired := false, matchWired := false
      runEnabled := true, startsPollingWith := none }
  | some entries =>
    { displayedLog := entries.map (fun e => boldMarkup e.text)
      oppsWired := jsTruthy r.opps_report_filename
      matchWired := jsTruthy r.match_report_filename
      runEnabled := true, startsPollingWith := none }

/-- pipeline.js `PipelineManager.runPipeline` (lines 84-96): starts
`startPolling(result.job_id)` when the id is truthy, otherwise throws
"Failed to get job ID from server"; nothing else of the body is read. -/
def pipelineManagerRunStartsPolling (r : RunPipelineResponse) : Option String :=
  if jsTruthy r.job_id then r.job_id else none

/- ----------------------------------------------------------------
   C3: download-button wiring on terminal status responses.
   ---------------------------------------------------------------- -/

/-- Wiring (onclick assigned) and enablement of the two download
buttons. -/
structure DownloadButtons where
  oppsWired : Bool
  oppsEnabled : Bool
  matchWired : Bool
  matchEnabled : Bool
deriving DecidableEq

/-- part_003 `checkPipelineStatus`, terminal branch (lines 60-69): for
both `completed` and `failed`, each download button is wired and
enabled exactly when its filename is truthy. -/
def legacyTerminalButtons (opps mr : Option String) : DownloadButtons :=
  { oppsWired := jsTruthy opps, oppsEnabled := jsTruthy opps
    matchWired := jsTruthy mr, matchEnabled := jsTruthy mr }

/-- pipeline.js terminal handling: `handleCompletion` calls
`updateButtonState(false)`, which enables each download button exactly
when the filename batched into state by `processPipelineUpdate` is
truthy, but `setupDownloadButtons` (which assigns the onclick handlers)
runs only in the `completed` branch. -/
def moduleCompletionButtons (status : String) (opps mr : Option String) :
    DownloadButtons :=
  { oppsWired := status == "completed" && jsTruthy opps
    oppsEnabled := jsTruthy opps
    matchWired := status == "completed" && jsTruthy mr
    matchEnabled := jsTruthy mr }

/- ----------------------------------------------------------------
   C4: log rendering of status responses.
   ---------------------------------------------------------------- -/

/-- part_003 `checkPipelineStatus` log replay (lines 50-58): the log
container is cleared and one div per entry is appended, in array order,
with `textContent = entry.text` verbatim. -/
def legacyRenderLog (log : List LogEntry) : List String :=
  log.map (fun e => e.text)

/-- The text pipeline.js `updateLogDisplay` gives one log element:
`` `${timestamp} - ${entry.text}` `` where `timestamp` is
`toLocaleTimeString()` of the entry's timestamp, or of the current time
when the entry has none; `fmt` abstracts that locale-dependent
conversion. -/
def moduleLogElementText (fmt : Option String → String) (e : LogEntry) : String :=
  fmt e.timestamp ++ " - " ++ e.text

/-- pipeline.js `PipelineManager.updateLogDisplay` (lines 284-304):
clears the container and appends one div per entry, in array order,
with the timestamp-prefixed text. -/
def updateLogDisplay (fmt : Option String → String) (log : List LogEntry) :
    List String :=
  log.map (moduleLogElementText fmt)

/-- A fixed stand-in for `toLocaleTimeString()`, used to instantiate the
timestamp-formatting parameter at a concrete input. -/
def fmtFixedTime : Option String → String := fun _ => "12:00:00 PM"

/- ----------------------------------------------------------------
   C5: unknown job ids.
   ---------------------------------------------------------------- -/

/-- A job record as exposed by the status endpoint. -/
structure Job where
  status : String
  log : List LogEntry
  opps_report_filename : Option String
  match_report_filename : Option String
deriving DecidableEq

/-- Modelled from the spec: the backend Flask app (Job Registry) is not
in the repository sources; per the spec, `GetStatus(jobId)` is a
read-only lookup in the registry's job map that answers "not found" for
an unknown or expired id, never a stale or default record. -/
def getStatus (registry : List (String × Job)) (jobId : String) : Option Job :=
  (registry.find? (fun p => p.1 == jobId)).map Prod.snd

/-- What one `PipelineManager.checkStatus` round does with the HTTP
layer of a status response: whether polling stops and whether the
stop is the job-not-found error path. -/
structure StatusCheckStep where
  stopsPolling : Bool
  jobNotFoundError : Bool
deriving DecidableEq

/-- The branches of pipeline.js `PipelineManager.checkStatus` (lines
126-146) in isolation: a non-ok response with status code 404 would go
to `handleError('Pipeline job not found', ...)`, which stops polling;
any other non-ok code throws, is caught, logged, and polling continues;
an ok response is processed and stops polling exactly on a terminal
status.  `checkStatus` obtains its response from `Utils.request`,
which never returns a non-ok response (it throws instead), so in the
composed client — `checkStatusRound` below — the `ok = false` branches
are dead code. -/
def checkStatusStep (ok : Bool) (code : Nat) (status : String) : StatusCheckStep :=
  if !ok then
    if code == 404 then { stopsPolling := true, jobNotFoundError := true }
    else { stopsPolling := false, jobNotFoundError := false }
  else
    { stopsPolling := status == "completed" || status == "failed"
      jobNotFoundError := false }

/- ----------------------------------------------------------------
   C6: Utils.request retry policy.
   ---------------------------------------------------------------- -/

/-- Outcome of one `fetch` attempt: a rejection (network failure or
abort) or a response with an HTTP status code. -/
inductive FetchOutcome where
  | netErr
  | resp (code : Nat)
deriving DecidableEq

/-- `response.ok`: status code in the range 200-299. -/
def respOk (code : Nat) : Bool := 200 ≤ code && code ≤ 299

/-- Whether an attempt lands in `Utils.request`'s catch block: every
rejection does, and so does every non-ok response (the code throws
`HTTP ...` on `!response.ok`). -/
def attemptFails : FetchOutcome → Bool
  | .netErr => true
  | .resp code => !respOk code

/-- Result of `Utils.request`: the response of the succeeding attempt
(with its 1-based attempt number), or the final surfaced error carrying
how many attempts were made. -/
inductive RequestResult where
  | success (code : Nat) (attempt : Nat)
  | failure (attempts : Nat)
deriving DecidableEq

/-- The `for (attempt = 1; attempt <= maxRetries; ...)` loop of
`Utils.request` (Utils.js lines 183-212), with the outcome of each
successive attempt supplied as a list whose length is `maxRetries`:
an ok response returns it; otherwise, when this was the last allowed
attempt (`attempt === maxRetries`, i.e. no outcomes remain) the error
surfaces, and otherwise the loop sleeps the backoff delay and retries. -/
def requestGo (attempt : Nat) : List FetchOutcome → RequestResult
  | [] => .failure (attempt - 1)
  | o :: rest =>
    match o with
    | .resp code =>
      if respOk code then .success code attempt
      else if rest.isEmpty then .failure attempt
      else requestGo (attempt + 1) rest
    | .netErr =>
      if rest.isEmpty then .failure attempt
      else requestGo (attempt + 1) rest

/-- `Utils.request` run on the per-attempt outcomes; attempts are
numbered from 1 as in the source. -/
def utilsRequest (outcomes : List FetchOutcome) : RequestResult :=
  requestGo 1 outcomes

/-- `maxRetries = 3`, the default of `Utils.request`. -/
def utilsRequestMaxRetriesDefault : Nat := 3

/-- The backoff before retry number `attempt + 1`:
`Math.min(1000 * Math.pow(2, attempt - 1), 10000)` milliseconds. -/
def backoffDelayMs (attempt : Nat) : Nat :=
  min (1000 * 2 ^ (attempt - 1)) 10000

/-- One full status-polling round of the composed client:
`PipelineManager.checkStatus` awaits `this.utils.request(...)`, so the
response it inspects is whatever `Utils.request` produces from the
per-attempt outcomes.  A returned response is always ok and flows into
`processPipelineUpdate` via the `checkStatusStep` branches; a throw
from `Utils.request` (which is where every non-ok response, 404
included, ends up) lands in `checkStatus`'s catch, which only logs
`Error checking status` — polling continues and no job-not-found error
is raised.  `status` is the status field the parsed body carries when a
response is returned. -/
def checkStatusRound (outcomes : List FetchOutcome) (status : String) :
    StatusCheckStep :=
  match utilsRequest outcomes with
  | .success code _ => checkStatusStep true code status
  | .failure _ => { stopsPolling := false, jobNotFoundError := false }

/- ----------------------------------------------------------------
   C7: normalizer/deduplicator.
   ---------------------------------------------------------------- -/

/-- The canonical Opportunity record of the data model (fingerprint is
computed, not stored). -/
structure Opportunity where
  title : String
  agency : String
  url : String
  postedDate : String
  closeDate : String
  sourceName : String
  description : String
deriving DecidableEq

/-- Whitespace characters collapsed by fingerprint normalization. -/
def isSpaceChar (c : Char) : Bool :=
  c == ' ' || c == '\t' || c == '\n' || c == '\r'

/-- Modelled from the spec: the backend Normalizer/Deduplicator is not
in the repository sources; per the spec the fingerprint is a
case-insensitive, whitespace-normalized hash of title + agency + url
(title + agency when the url is absent).  The normalized string itself
stands in for the stable hash. -/
def normalizeFp (s : String) : String :=
  String.intercalate " " ((s.toLower.split isSpaceChar).filter (fun t => !(t == "")))

/-- Modelled from the spec: the dedup key of an Opportunity. -/
def fingerprint (o : Opportunity) : String :=
  if o.url == "" then normalizeFp (o.title ++ "|" ++ o.agency)
  else normalizeFp (o.title ++ "|" ++ o.agency ++ "|" ++ o.url)

/-- Single pass over the aggregated list keeping the first record seen
for each key, in first-seen order. -/
def dedupByAux {α β : Type} [DecidableEq β] (key : α → β) :
    List β → List α → List α
  | _, [] => []
  | seen, a :: rest =>
    if key a ∈ seen then dedupByAux key seen rest
    else a :: dedupByAux key (key a :: seen) rest

/-- Modelled from the spec: `Dedup([Opportunity]) -> [Opportunity]`, a
single pass over the full aggregated set preserving first-seen order,
at most one Opportunity per fingerprint, later duplicates dropped. -/
def dedup (l : List Opportunity) : List Opportunity :=
  dedupByAux fingerprint [] l

/- ----------------------------------------------------------------
   C8, C9: the loaded source configuration (src/tools/config.json).
   ---------------------------------------------------------------- -/

/-- A primitive JSON value appearing inside an `args` map. -/
inductive JPrim where
  | str (s : String)
  | num (n : Int)
deriving DecidableEq

/-- A JSON value appearing as a field of a scraper entry. -/
inductive ConfigValue where
  | str (s : String)
  | bool (b : Bool)
  | map (kvs : List (String × JPrim))
deriving DecidableEq

/-- The `scrapers` array of src/tools/config.json, each entry kept as
its ordered field list so that the exact field set is part of the
embedding. -/
def scrapersConfig : List (List (String × ConfigValue)) :=
  [ [("name", .str "NASC Solutions"), ("function", .str "fetch_nasc_opportunities"),
     ("requires_driver", .bool false),
     ("args", .map [("headers", .str "HEADERS"), ("max_cards_to_process", .num 20)])],
    [("name", .str "OSTI FOA"), ("function", .str "fetch_osti_foas"),
     ("requires_driver", .bool false),
     ("args", .map [("headers", .str "HEADERS"), ("max_items", .num 20)])],
    [("name", .str "NSIN Events"), ("function", .str "fetch_nsin_opportunities"),
     ("requires_driver", .bool false),
     ("args", .map [("headers", .str "HEADERS")])],
    [("name", .str "DoD SBIR/STTR"), ("function", .str "fetch_dod_sbir_sttr_topics"),
     ("requires_driver", .bool false), ("args", .map [])],
    [("name", .str "NASA SBIR/STTR"), ("function", .str "fetch_nasa_sbir_opportunities"),
     ("requires_driver", .bool false),
     ("args", .map [("headers", .str "HEADERS")])],
    [("name", .str "DARPA"), ("function", .str "fetch_darpa_opportunities"),
     ("requires_driver", .bool false),
     ("args", .map [("headers", .str "HEADERS")])],
    [("name", .str "ARPA-H"), ("function", .str "fetch_arpah_opportunities"),
     ("requires_driver", .bool false),
     ("args", .map [("headers", .str "HEADERS")])],
    [("name", .str "EUREKA"), ("function", .str "fetch_eureka_opportunities"),
     ("requires_driver", .bool false), ("args", .map [])],
    [("name", .str "NIH SBIR"), ("function", .str "fetch_nih_sbir_opportunities"),
     ("requires_driver", .bool false),
     ("args", .map [("headers", .str "HEADERS"), ("max_items", .num 20)])],
    [("name", .str "SAM.gov"), ("function", .str "fetch_sam_gov_opportunities"),
     ("requires_driver", .bool false),
     ("args", .map [("api_key", .str "YOUR_SAM_API_KEY")])],
    [("name", .str "NSTXL"), ("function", .str "fetch_nstxl_opportunities"),
     ("requires_driver", .bool false), ("args", .map [])],
    [("name", .str "MTEC"), ("function", .str "fetch_mtec_opportunities"),
     ("requires_driver", .bool false),
     ("args", .map [("headers", .str "HEADERS")])],
    [("name", .str "AFWERX"), ("function", .str "fetch_afwerx_opportunities"),
     ("requires_driver", .bool false), ("args", .map [])],
    [("name", .str "ARL Opportunities"), ("function", .str "fetch_arl_opportunities"),
     ("requires_driver", .bool false),
     ("args", .map [("max_items", .num 20)])],
    [("name", .str "DIU"), ("function", .str "fetch_diu_opportunities"),
     ("requires_driver", .bool false), ("args", .map [])],
    [("name", .str "SOCOM BAA"), ("function", .str "fetch_socom_opportunities"),
     ("requires_driver", .bool false),
     ("args", .map [("max_items", .num 20)])],
    [("name", .str "IARPA"), ("function", .str "fetch_iarpa_opportunities"),
     ("requires_driver", .bool false), ("args", .map [])],
    [("name", .str "ARPA-E"), ("function", .str "fetch_arpae_opportunities"),
     ("requires_driver", .bool false),
     ("args", .map [("url_to_scrape",
       .str "https://arpa-e-foa.energy.gov/#FoaIdda84547f-8f17-4321-bc46-d717314a28b8")])],
    [("name", .str "SBIR Partnerships"),
     ("function", .str "fetch_sbir_partnership_opportunities"),
     ("requires_driver", .bool false), ("args", .map [])] ]

/-- The ordered field names of one config entry. -/
def entryFieldNames (e : List (String × ConfigValue)) : List String :=
  e.map Prod.fst

/-- Field lookup in a config entry. -/
def entryLookup (e : List (String × ConfigValue)) (k : String) : Option ConfigValue :=
  (e.find? (fun p => p.1 == k)).map Prod.snd

/-- The `name` of a config entry, when it is a string field. -/
def entryName (e : List (String × ConfigValue)) : Option String :=
  match entryLookup e "name" with
  | some (.str s) => some s
  | _ => none

/-- Whether an optional config value is a string. -/
def isStrVal : Option ConfigValue → Bool
  | some (.str _) => true
  | _ => false

/-- Whether an optional config value is a boolean. -/
def isBoolVal : Option ConfigValue → Bool
  | some (.bool _) => true
  | _ => false

/-- Whether an optional config value is a map. -/
def isMapVal : Option ConfigValue → Bool
  | some (.map _) => true
  | _ => false

/-- A scraper entry is well-formed when its field list is exactly
`name` (string), `function` (string), `requires_driver` (boolean) and
`args` (map), in that order. -/
def wellFormedScraperEntry (e : List (String × ConfigValue)) : Bool :=
  entryFieldNames e == ["name", "function", "requires_driver", "args"] &&
  isStrVal (entryLookup e "name") && isStrVal (entryLookup e "function") &&
  isBoolVal (entryLookup e "requires_driver") && isMapVal (entryLookup e "args")

/-- Whether an entry declares `requires_driver = true`. -/
def scraperRequiresDriver (e : List (String × ConfigValue)) : Bool :=
  entryLookup e "requires_driver" == some (.bool true)

/-- Modelled from the spec: the backend Fan-Out Executor is not in the
repository sources; per the spec, exactly the adapters declaring
`requires_driver = true` acquire a Driver Pool session before work, so
these entries are the ones whose runs exercise the acquisition path. -/
def driverRequiringSources : List (List (String × ConfigValue)) :=
  scrapersConfig.filter scraperRequiresDriver

/- ----------------------------------------------------------------
   C10: the two BoE cost-rollup embeddings.  JavaScript numbers are
   binary doubles; the arithmetic is embedded over ℚ, which agrees
   with the source formulas exactly on the small decimal inputs used
   below.
   ---------------------------------------------------------------- -/

/-- A labor task: WBS element name and hours per role. -/
structure WorkTask where
  task : String
  hours : List (String × ℚ)
deriving DecidableEq

/-- A materials row of the BoE form. -/
structure MaterialRow where
  part_number : String
  description : String
  vendor : String
  quantity : ℚ
  unit_cost : ℚ
deriving DecidableEq

/-- A travel row of the BoE form. -/
structure TravelRow where
  purpose : String
  trips : ℚ
  travelers : ℚ
  days : ℚ
  airfare : ℚ
  lodging : ℚ
  per_diem : ℚ
deriving DecidableEq

/-- A subcontract row of the BoE form. -/
structure SubcontractRow where
  subcontractor : String
  description : String
  cost : ℚ
deriving DecidableEq

/-- The project data object assembled by `getCurrentProjectData`. -/
structure ProjectData where
  project_title : String
  start_date : String
  pop : String
  work_plan : List WorkTask
  materials_and_tools : List MaterialRow
  travel : List TravelRow
  subcontracts : List SubcontractRow
deriving DecidableEq

/-- The totals object returned by both `calculateAllTotals`
implementations. -/
structure Totals where
  laborCost : ℚ
  materialsCost : ℚ
  travelCost : ℚ
  subcontractCost : ℚ
  totalDirectCosts : ℚ
  overheadAmount : ℚ
  subtotal : ℚ
  gnaAmount : ℚ
  totalCost : ℚ
  feeAmount : ℚ
  totalPrice : ℚ
deriving DecidableEq

/-- part_003 line 406: `const OVERHEAD_RATE = 0.17`. -/
def OVERHEAD_RATE : ℚ := 17 / 100

/-- part_003 line 407: `const GNA_RATE = 0.10`. -/
def GNA_RATE : ℚ := 10 / 100

/-- part_003 line 408: `const FEE_RATE = 0.07`. -/
def FEE_RATE : ℚ := 7 / 100

/-- `LABOR_RATES[role] || 0`: rate lookup defaulting to 0 for an
unknown role. -/
def lookupRate (rates : List (String × ℚ)) (role : String) : ℚ :=
  ((rates.find? (fun p => p.1 == role)).map Prod.snd).getD 0

/-- part_003 `calculateAllTotals` (lines 668-691), with the global
`LABOR_RATES` passed explicitly.  The travel term per row is
`trips * travelers * (airfare + lodging + days * per_diem)` — lodging
is charged once per trip. -/
def calculateAllTotals (laborRates : List (String × ℚ)) (pd : ProjectData) : Totals :=
  let laborCost := pd.work_plan.foldl
    (fun s t => t.hours.foldl (fun s2 rh => s2 + rh.2 * lookupRate laborRates rh.1) s) 0
  let materialsCost := pd.materials_and_tools.foldl
    (fun s r => s + r.quantity * r.unit_cost) 0
  let travelCost := pd.travel.foldl
    (fun s r => s + r.trips * r.travelers * (r.airfare + r.lodging + r.days * r.per_diem)) 0
  let subcontractCost := pd.subcontracts.foldl (fun s r => s + r.cost) 0
  let totalDirect := laborCost + materialsCost + travelCost + subcontractCost
  let overhead := laborCost * OVERHEAD_RATE
  let subtotal := totalDirect + overhead
  let gna := subtotal * GNA_RATE
  let totalCost := subtotal + gna
  let fee := totalCost * FEE_RATE
  let totalPrice := totalCost + fee
  ⟨laborCost, materialsCost, travelCost, subcontractCost, totalDirect,
   overhead, subtotal, gna, totalCost, fee, totalPrice⟩

/-- boegenerator.js `BoeGeneratorManager.calculateAllTotals` (lines
671-736), with `boe.laborRates` passed explicitly and `boe.rates`
empty, so the `rates.overhead || 0.17`, `rates.gna || 0.10` and
`rates.fee || 0.07` defaults apply.  The travel term per row is
`trips * travelers * (airfare + lodging * days + perDiem * days)` —
lodging is multiplied by days. -/
def BoeGeneratorManager.calculateAllTotals (laborRates : List (String × ℚ))
    (pd : ProjectData) : Totals :=
  let laborCost := pd.work_plan.foldl
    (fun s t => t.hours.foldl (fun s2 rh => s2 + rh.2 * lookupRate laborRates rh.1) s) 0
  let materialsCost := pd.materials_and_tools.foldl
    (fun s r => s + r.quantity * r.unit_cost) 0
  let travelCost := pd.travel.foldl
    (fun s r => s + r.trips * r.travelers * (r.airfare + r.lodging * r.days + r.per_diem * r.days)) 0
  let subcontractCost := pd.subcontracts.foldl (fun s r => s + r.cost) 0
  let totalDirectCosts := laborCost + materialsCost + travelCost + subcontractCost
  let overheadAmount := laborCost * (17 / 100 : ℚ)
  let subtotal := totalDirectCosts + overheadAmount
  let gnaAmount := subtotal * (10 / 100 : ℚ)
  let totalCost := subtotal + gnaAmount
  let feeAmount := totalCost * (7 / 100 : ℚ)
  let totalPrice := totalCost + feeAmount
  ⟨laborCost, materialsCost, travelCost, subcontractCost, totalDirectCosts,
   overheadAmount, subtotal, gnaAmount, totalCost, feeAmount, totalPrice⟩

/-- A project with a single travel row (1 trip, 1 traveler, 2 days,
lodging 100, everything else zero), on which the two rollups
disagree. -/
def pdTwoDayTrip : ProjectData :=
  ⟨"P", "", "", [], [], [⟨"site visit", 1, 1, 2, 0, 100, 0⟩], []⟩

/- ----------------------------------------------------------------
   Theorems.
   ---------------------------------------------------------------- -/

/-- Claim C1: both polling clients stop polling and re-enable the run
control exactly when the reported status is "completed" or "failed";
for any other status the legacy client schedules the next status
request 3000 ms later and the module client keeps its 3000 ms interval
running. -/
theorem C1_polling_stops_exactly_at_terminal :
    (∀ status : String,
      ((checkPipelineStatusStep status).stopsPolling = true ∧
       (checkPipelineStatusStep status).reEnablesRun = true ↔
        status = "completed" ∨ status = "failed")) ∧
    (∀ status : String,
      status ≠ "completed" → status ≠ "failed" →
        (checkPipelineStatusStep status).nextPollDelayMs = some 3000) ∧
    (∀ status : String,
      ((processPipelineUpdateStep status).stopsPolling = true ∧
       (processPipelineUpdateStep status).reEnablesRun = true ↔
        status = "completed" ∨ status = "failed")) ∧
    pollingIntervalMs = 3000 := by
  refine ⟨?_, ?_, ?_, rfl⟩
  · intro status
    simp only [checkPipelineStatusStep]
    by_cases h : status == "completed" || status == "failed"
    · simp only [h, if_true]
      simp only [Bool.or_eq_true, beq_iff_eq] at h
      simp [h]
    · simp only [h, if_false]
      simp only [Bool.or_eq_true, beq_iff_eq] at h
      push_neg at h
      simp [h.1, h.2]
  · intro status h1 h2
    simp [checkPipelineStatusStep, h1, h2]
  · intro status
    simp only [processPipelineUpdateStep]
    by_cases h : status == "completed" || status == "failed"
    · simp only [h, if_true]
      simp only [Bool.or_eq_true, beq_iff_eq] at h
      simp [h]
    · simp only [h, if_false]
      simp only [Bool.or_eq_true, beq_iff_eq] at h
      push_neg at h
      simp [h.1, h.2]

/-- Witness for C1: at the concrete non-terminal status "running" the
legacy client schedules the next request 3000 ms later, and at
"completed" both clients stop. -/
theorem C1_polling_stops_exactly_at_terminal_witness :
    (checkPipelineStatusStep "running").nextPollDelayMs = some 3000 ∧
    (checkPipelineStatusStep "completed").stopsPolling = true ∧
    (processPipelineUpdateStep "failed").stopsPolling = true := by
  refine ⟨C1_polling_stops_exactly_at_terminal.2.1 "running" (by decide) (by decide),
    ((C1_polling_stops_exactly_at_terminal.1 "completed").mpr (Or.inl rfl)).1,
    ((C1_polling_stops_exactly_at_terminal.2.2.1 "failed").mpr (Or.inr rfl)).1⟩

/-- Claim C2: evaluation of the three run-pipeline click handlers on the
spec-shaped response body `\x7bjob_id: "abc123"\x7d`.  The part_003 and
pipeline.js handlers read only the job id and start status polling with
it; the main.js handler (the one index.html loads) instead reads
`result.log` from the run-pipeline response body itself — on the
spec-shaped body this throws, no log is obtained, no download button is
wired and no status request is ever issued, while on a body that does
carry log and filenames the main.js handler renders the log and wires
both buttons from that body, never polling. -/
theorem C2_mainjs_reads_run_response_body :
    (legacyRunHandler ⟨some "abc123", none, none, none⟩).startsPollingWith =
      some "abc123" ∧
    pipelineManagerRunStartsPolling ⟨some "abc123", none, none, none⟩ =
      some "abc123" ∧
    (∀ r r' : RunPipelineResponse, r.job_id = r'.job_id →
        legacyRunHandler r = legacyRunHandler r') ∧
    (∀ r : RunPipelineResponse, (mainJsRunHandler r).startsPollingWith = none) ∧
    (mainJsRunHandler ⟨some "abc123", none, none, none⟩).displayedLog =
      ["TypeError: Cannot read properties of undefined (reading 'forEach')"] ∧
    (mainJsRunHandler ⟨some "abc123", none, none, none⟩).oppsWired = false ∧
    (mainJsRunHandler
        ⟨some "abc123", some [⟨"**Pipeline complete**", "info", none⟩],
          some "opps_report.xlsx", some "match_report.xlsx"⟩).displayedLog =
      ["<strong>Pipeline complete</strong>"] ∧
    (mainJsRunHandler
        ⟨some "abc123", some [⟨"**Pipeline complete**", "info", none⟩],
          some "opps_report.xlsx", some "match_report.xlsx"⟩).oppsWired = true := by
  refine ⟨rfl, rfl, ?_, ?_, rfl, rfl, by decide, rfl⟩
  · intro r r' h
    simp [legacyRunHandler, h]
  · intro r
    cases h : r.log <;> simp [mainJsRunHandler, h]

/-- Witness for C2: the dependence-on-job_id-only conjunct applied to
two concrete bodies that differ everywhere except the job id. -/
theorem C2_mainjs_reads_run_response_body_witness :
    legacyRunHandler ⟨some "abc123", none, none, none⟩ =
      legacyRunHandler
        ⟨some "abc123", some [⟨"ignored", "info", none⟩],
          some "opps_report.xlsx", some "match_report.xlsx"⟩ ∧
    (mainJsRunHandler ⟨some "abc123", none, none, none⟩).startsPollingWith = none :=
  ⟨C2_mainjs_reads_run_response_body.2.2.1
      ⟨some "abc123", none, none, none⟩
      ⟨some "abc123", some [⟨"ignored", "info", none⟩],
        some "opps_report.xlsx", some "match_report.xlsx"⟩ rfl,
    C2_mainjs_reads_run_response_body.2.2.2.1 ⟨some "abc123", none, none, none⟩⟩

/-- Counterexample to claim C3 as stated: on the terminal status
response `failed` with a non-null opportunities filename, the module
client does not wire the opportunities download action, so "wired and
enabled iff non-null" fails. -/
theorem C3_wired_iff_nonnull_counterexample :
    ¬ (((moduleCompletionButtons "failed" (some "opps_report.xlsx")
          none).oppsWired = true)
        ↔ jsTruthy (some "opps_report.xlsx") = true) := by
  decide

/-- Claim C3 (amended): the legacy client wires and enables each
download action iff its filename is truthy on every terminal response;
the module client does so on every completed response, while on a
failed response it wires neither action (enablement alone still tracks
filename presence); in particular a completed run with a null
matchmaking filename still exposes the opportunities report. -/
theorem C3_download_buttons_amended :
    (∀ opps mr : Option String,
      legacyTerminalButtons opps mr =
        ⟨jsTruthy opps, jsTruthy opps, jsTruthy mr, jsTruthy mr⟩) ∧
    (∀ opps mr : Option String,
      moduleCompletionButtons "completed" opps mr =
        ⟨jsTruthy opps, jsTruthy opps, jsTruthy mr, jsTruthy mr⟩) ∧
    (∀ opps mr : Option String,
      moduleCompletionButtons "failed" opps mr =
        ⟨false, jsTruthy opps, false, jsTruthy mr⟩) ∧
    moduleCompletionButtons "completed" (some "opps_report.xlsx") none =
      ⟨true, true, false, false⟩ := by
  refine ⟨fun opps mr => rfl, fun opps mr => ?_, fun opps mr => ?_, by decide⟩
  · simp [moduleCompletionButtons]
  · simp [moduleCompletionButtons]

/-- Counterexample to claim C4 as stated: the module client's status-log
rendering does not display the entry's text unmodified — it prefixes a
time string. -/
theorem C4_verbatim_counterexample :
    updateLogDisplay fmtFixedTime
        [⟨"🚀 Starting pipeline...", "info", some "2025-01-01T12:00:00Z"⟩] ≠
      ["🚀 Starting pipeline..."] := by
  decide

/-- Claim C4 (amended): on a status response with a log array both
clients clear the display and render exactly one element per entry in
array order; the legacy part_003 client displays each entry's text
verbatim, while the module pipeline.js client displays a locale time
string, then " - ", then the text — a prefixed rendering that never
equals the raw text. -/
theorem C4_log_replay_amended :
    (∀ log : List LogEntry, legacyRenderLog log = log.map LogEntry.text) ∧
    (∀ (fmt : Option String → String) (log : List LogEntry),
        (updateLogDisplay fmt log).length = log.length) ∧
    (∀ (fmt : Option String → String) (log : List LogEntry),
        updateLogDisplay fmt log = log.map (moduleLogElementText fmt)) ∧
    (∀ (fmt : Option String → String) (e : LogEntry),
        moduleLogElementText fmt e ≠ e.text) := by
  refine ⟨fun log => rfl, fun fmt log => List.length_map log _,
    fun fmt log => rfl, ?_⟩
  intro fmt e h
  have hlen := congrArg String.length h
  have hsep : (" - " : String).length = 3 := rfl
  simp only [moduleLogElementText, String.length_append, hsep] at hlen
  omega

/-- Witness for C4's amended theorem at a concrete formatter and
entry. -/
theorem C4_log_replay_amended_witness :
    moduleLogElementText fmtFixedTime ⟨"done", "info", none⟩ ≠ "done" :=
  C4_log_replay_amended.2.2.2 fmtFixedTime ⟨"done", "info", none⟩

/-- Every failing attempt is either a network rejection or a non-ok
response. -/
theorem attemptFails_cases (o : FetchOutcome) (ho : attemptFails o = true) :
    o = FetchOutcome.netErr ∨
      ∃ c, o = FetchOutcome.resp c ∧ respOk c = false := by
  cases o with
  | netErr => exact Or.inl rfl
  | resp c => exact Or.inr ⟨c, rfl, by simpa [attemptFails] using ho⟩

/-- With the default of three attempts, three straight failures of any
kind surface as an error after exactly 3 attempts. -/
theorem utilsRequest_all_fail (o1 o2 o3 : FetchOutcome)
    (h1 : attemptFails o1 = true) (h2 : attemptFails o2 = true)
    (h3 : attemptFails o3 = true) :
    utilsRequest [o1, o2, o3] = RequestResult.failure 3 := by
  rcases attemptFails_cases o1 h1 with rfl | ⟨c1, rfl, r1⟩ <;>
    rcases attemptFails_cases o2 h2 with rfl | ⟨c2, rfl, r2⟩ <;>
    rcases attemptFails_cases o3 h3 with rfl | ⟨c3, rfl, r3⟩ <;>
    simp [utilsRequest, requestGo, *]

/-- An ok response on the first attempt is returned at once. -/
theorem utilsRequest_first_ok (code : Nat) (rest : List FetchOutcome)
    (h : respOk code = true) :
    utilsRequest (FetchOutcome.resp code :: rest) =
      RequestResult.success code 1 := by
  simp [utilsRequest, requestGo, h]

/-- Counterexample to claim C5 as stated: when the server answers 404 to
every attempt of a status round, the composed client neither raises the
job-not-found error nor stops polling — `Utils.request` retries the 404s
and then throws, so `checkStatus`'s 404 branch is never reached and the
catch block keeps the interval running. -/
theorem C5_404_keeps_polling_counterexample :
    ¬ ((checkStatusRound [FetchOutcome.resp 404, FetchOutcome.resp 404,
          FetchOutcome.resp 404] "running").jobNotFoundError = true ∧
        (checkStatusRound [FetchOutcome.resp 404, FetchOutcome.resp 404,
          FetchOutcome.resp 404] "running").stopsPolling = true) := by
  decide

/-- Claim C5 (amended): a status query on a job id not in the registry
returns "not found" (no stale or default record).  The polling client,
however, never maps 404 to its job-not-found stop: `Utils.request`
throws on every non-ok response, so the composed round never raises
`jobNotFoundError` for any outcomes; when every attempt fails — a
persistent 404 included — the round logs and keeps polling, as if the
job were still running, and only a returned (ok) response can stop
polling, exactly at a terminal status. -/
theorem C5_unknown_job_not_found_amended :
    (∀ (registry : List (String × Job)) (jobId : String),
        (∀ p ∈ registry, p.1 ≠ jobId) → getStatus registry jobId = none) ∧
    (∀ (outcomes : List FetchOutcome) (status : String),
        (checkStatusRound outcomes status).jobNotFoundError = false) ∧
    (∀ (o1 o2 o3 : FetchOutcome) (status : String),
        attemptFails o1 = true → attemptFails o2 = true →
        attemptFails o3 = true →
        checkStatusRound [o1, o2, o3] status =
          { stopsPolling := false, jobNotFoundError := false }) ∧
    (∀ (code : Nat) (rest : List FetchOutcome) (status : String),
        respOk code = true →
        (checkStatusRound (FetchOutcome.resp code :: rest) status).stopsPolling =
          (status == "completed" || status == "failed")) := by
  refine ⟨?_, ?_, ?_, ?_⟩
  · intro registry jobId h
    have hfind : List.find? (fun p => p.1 == jobId) registry = none := by
      rw [List.find?_eq_none]
      intro p hp
      simpa using h p hp
    simp [getStatus, hfind]
  · intro outcomes status
    cases h : utilsRequest outcomes with
    | success code attempt => simp [checkStatusRound, h, checkStatusStep]
    | failure n => simp [checkStatusRound, h]
  · intro o1 o2 o3 status h1 h2 h3
    simp [checkStatusRound, utilsRequest_all_fail o1 o2 o3 h1 h2 h3]
  · intro code rest status h
    simp [checkStatusRound, utilsRequest_first_ok code rest h, checkStatusStep]

/-- Witness for C5's amended theorem: a concrete one-job registry
queried with a different id answers none; three 404 responses keep
polling without the job-not-found error; a 200 carrying a completed
body stops polling. -/
theorem C5_unknown_job_not_found_amended_witness :
    getStatus [("job-1", ⟨"running", [], none, none⟩)] "job-2" = none ∧
    checkStatusRound [FetchOutcome.resp 404, FetchOutcome.resp 404,
        FetchOutcome.resp 404] "running" =
      { stopsPolling := false, jobNotFoundError := false } ∧
    (checkStatusRound [FetchOutcome.resp 200] "completed").stopsPolling = true :=
  ⟨C5_unknown_job_not_found_amended.1 [("job-1", ⟨"running", [], none, none⟩)]
      "job-2" (by decide),
    C5_unknown_job_not_found_amended.2.2.1 (FetchOutcome.resp 404)
      (FetchOutcome.resp 404) (FetchOutcome.resp 404) "running"
      (by decide) (by decide) (by decide),
    (C5_unknown_job_not_found_amended.2.2.2 200 [] "completed"
      (by decide)).trans (by decide)⟩

/-- Counterexample to claim C6 as stated: a 4xx response does not
surface immediately — with the default of 3 attempts, three straight
400 responses are consumed before the error surfaces, so the failure
reports 3 attempts, not 1. -/
theorem C6_no_immediate_4xx_counterexample :
    utilsRequest [FetchOutcome.resp 400, FetchOutcome.resp 400,
        FetchOutcome.resp 400] = RequestResult.failure 3 ∧
    utilsRequest [FetchOutcome.resp 400, FetchOutcome.resp 400,
        FetchOutcome.resp 400] ≠ RequestResult.failure 1 := by
  decide

/-- Claim C6 (amended): `Utils.request` treats every failure alike —
network rejection or non-ok response (4xx included) — retrying with
exponential backoff up to `maxRetries` (default 3) attempts; the error
surfaces only after the final attempt, and a success on any attempt is
returned at once. -/
theorem C6_retry_policy_amended :
    (∀ o1 o2 o3 : FetchOutcome,
        attemptFails o1 = true → attemptFails o2 = true →
        attemptFails o3 = true →
        utilsRequest [o1, o2, o3] = RequestResult.failure 3) ∧
    (∀ (code : Nat) (rest : List FetchOutcome), respOk code = true →
        utilsRequest (FetchOutcome.resp code :: rest) =
          RequestResult.success code 1) ∧
    (∀ (o1 : FetchOutcome) (code : Nat) (rest : List FetchOutcome),
        attemptFails o1 = true → respOk code = true →
        utilsRequest (o1 :: FetchOutcome.resp code :: rest) =
          RequestResult.success code 2) ∧
    backoffDelayMs 1 = 1000 ∧ backoffDelayMs 2 = 2000 ∧
    backoffDelayMs 3 = 4000 ∧ utilsRequestMaxRetriesDefault = 3 := by
  refine ⟨utilsRequest_all_fail, utilsRequest_first_ok, ?_,
    by decide, by decide, by decide, rfl⟩
  intro o1 code rest h1 h2
  rcases attemptFails_cases o1 h1 with rfl | ⟨c1, rfl, r1⟩ <;>
    simp [utilsRequest, requestGo, h2, *]

/-- Witness for C6's amended theorem at concrete outcomes: three
network failures surface after 3 attempts, and a 200 on the second
attempt after a 400 succeeds there. -/
theorem C6_retry_policy_amended_witness :
    utilsRequest [FetchOutcome.netErr, FetchOutcome.netErr,
        FetchOutcome.netErr] = RequestResult.failure 3 ∧
    utilsRequest [FetchOutcome.resp 400, FetchOutcome.resp 200,
        FetchOutcome.netErr] = RequestResult.success 200 2 :=
  ⟨C6_retry_policy_amended.1 FetchOutcome.netErr FetchOutcome.netErr
      FetchOutcome.netErr (by decide) (by decide) (by decide),
    C6_retry_policy_amended.2.2.1 (FetchOutcome.resp 400) 200
      [FetchOutcome.netErr] (by decide) (by decide)⟩

/-- First-seen dedup is idempotent for any key function and any seen
set. -/
theorem dedupByAux_idem {α β : Type} [DecidableEq β] (key : α → β) :
    ∀ (l : List α) (seen : List β),
      dedupByAux key seen (dedupByAux key seen l) = dedupByAux key seen l := by
  intro l
  induction l with
  | nil => intro seen; rfl
  | cons a rest ih =>
    intro seen
    by_cases h : key a ∈ seen
    · simp [dedupByAux, h, ih seen]
    · simp [dedupByAux, h, ih (key a :: seen)]

/-- Claim C7: dedup by fingerprint is idempotent, and as a pure function
of the input list it is deterministic — the same input set always
yields the same surviving subset. -/
theorem C7_dedup_idempotent :
    (∀ X : List Opportunity, dedup (dedup X) = dedup X) ∧
    (∀ X Y : List Opportunity, X = Y → dedup X = dedup Y) :=
  ⟨fun X => dedupByAux_idem fingerprint X [],
    fun _ _ h => by rw [h]⟩

/-- Witness for C7 at a concrete two-element list whose records share a
fingerprint up to case and whitespace. -/
theorem C7_dedup_idempotent_witness :
    dedup (dedup
        [⟨"Quantum Sensing BAA", "DARPA", "https://example.org/baa", "", "", "DARPA", ""⟩,
         ⟨"quantum  sensing baa", "darpa", "HTTPS://EXAMPLE.ORG/BAA", "", "", "NSTXL", ""⟩]) =
      dedup
        [⟨"Quantum Sensing BAA", "DARPA", "https://example.org/baa", "", "", "DARPA", ""⟩,
         ⟨"quantum  sensing baa", "darpa", "HTTPS://EXAMPLE.ORG/BAA", "", "", "NSTXL", ""⟩] ∧
    dedup [⟨"A", "B", "", "", "", "S", ""⟩] = dedup [⟨"A", "B", "", "", "", "S", ""⟩] :=
  ⟨C7_dedup_idempotent.1 _,
    C7_dedup_idempotent.2 [⟨"A", "B", "", "", "", "S", ""⟩]
      [⟨"A", "B", "", "", "", "S", ""⟩] rfl⟩

/-- Claim C8: the loaded source configuration has exactly 19 entries
with pairwise-distinct names, and every entry consists of exactly the
fields name (string), function (adapter identifier string),
requires_driver (boolean) and args (a map). -/
theorem C8_config_shape :
    scrapersConfig.length = 19 ∧
    (scrapersConfig.map entryName).Nodup ∧
    scrapersConfig.all wellFormedScraperEntry = true := by
  refine ⟨rfl, by decide, rfl⟩

/-- Claim C9: every configured source declares requires_driver = false,
so no entry is routed through the Driver Pool acquisition path. -/
theorem C9_no_driver_sources :
    scrapersConfig.all (fun e => !scraperRequiresDriver e) = true ∧
    driverRequiringSources = [] := by
  refine ⟨rfl, rfl⟩

/-- A per-element accumulating fold starting from `a` equals `a` plus
the same fold from 0. -/
theorem foldl_add_shift {α : Type} (g : α → ℚ) :
    ∀ (l : List α) (a : ℚ),
      l.foldl (fun s r => s + g r) a = a + l.foldl (fun s r => s + g r) 0 := by
  intro l
  induction l with
  | nil => intro a; simp
  | cons r rest ih =>
    intro a
    simp only [List.foldl_cons]
    rw [ih (a + g r), ih (0 + g r)]
    ring

/-- Summed folds subtract pointwise. -/
theorem foldl_sum_sub {α : Type} (g1 g2 d : α → ℚ)
    (h : ∀ r, g2 r - g1 r = d r) :
    ∀ l : List α,
      l.foldl (fun s r => s + g2 r) 0 - l.foldl (fun s r => s + g1 r) 0 =
        l.foldl (fun s r => s + d r) 0 := by
  intro l
  induction l with
  | nil => simp
  | cons r rest ih =>
    simp only [List.foldl_cons]
    rw [foldl_add_shift g2, foldl_add_shift g1, foldl_add_shift d]
    have := h r
    linarith

/-- A summed fold of elementwise zeros is zero. -/
theorem foldl_sum_zero {α : Type} (d : α → ℚ) :
    ∀ l : List α, (∀ r ∈ l, d r = 0) →
      l.foldl (fun s r => s + d r) 0 = 0 := by
  intro l
  induction l with
  | nil => intro _; rfl
  | cons r rest ih =>
    intro h
    simp only [List.foldl_cons]
    rw [foldl_add_shift d, ih (fun x hx => h x (List.mem_cons_of_mem r hx)),
      h r (List.mem_cons_self r rest)]
    ring

/-- Counterexample to claim C10 as stated: on a project whose one
travel row has 2 days and lodging 100, the part_003 rollup charges 100
of travel while the boegenerator.js rollup charges 200 — the two
embeddings do not return equal totals for every input. -/
theorem C10_totals_equal_counterexample :
    calculateAllTotals [] pdTwoDayTrip ≠
      BoeGeneratorManager.calculateAllTotals [] pdTwoDayTrip ∧
    (calculateAllTotals [] pdTwoDayTrip).travelCost = 100 ∧
    (BoeGeneratorManager.calculateAllTotals [] pdTwoDayTrip).travelCost = 200 := by
  have h1 : (calculateAllTotals [] pdTwoDayTrip).travelCost = 100 := by
    norm_num [calculateAllTotals, pdTwoDayTrip]
  have h2 : (BoeGeneratorManager.calculateAllTotals [] pdTwoDayTrip).travelCost = 200 := by
    norm_num [BoeGeneratorManager.calculateAllTotals, pdTwoDayTrip]
  refine ⟨?_, h1, h2⟩
  intro h
  have h3 := congrArg Totals.travelCost h
  rw [h1, h2] at h3
  norm_num at h3

/-- Claim C10 (amended): the two rollups agree on labor, materials and
subcontract costs for every input and every rate table; their travel
costs differ by exactly the sum of
`trips * travelers * lodging * (days - 1)` over the travel rows —
part_003 charges lodging once per trip, boegenerator.js multiplies it
by days; the full totals coincide if and only if that sum vanishes, and
in particular whenever every travel row has lodging 0 or a 1-day
stay. -/
theorem C10_totals_amended :
    (∀ (rates : List (String × ℚ)) (pd : ProjectData),
      (calculateAllTotals rates pd).laborCost =
        (BoeGeneratorManager.calculateAllTotals rates pd).laborCost ∧
      (calculateAllTotals rates pd).materialsCost =
        (BoeGeneratorManager.calculateAllTotals rates pd).materialsCost ∧
      (calculateAllTotals rates pd).subcontractCost =
        (BoeGeneratorManager.calculateAllTotals rates pd).subcontractCost) ∧
    (∀ (rates : List (String × ℚ)) (pd : ProjectData),
      (BoeGeneratorManager.calculateAllTotals rates pd).travelCost -
          (calculateAllTotals rates pd).travelCost =
        pd.travel.foldl
          (fun s r => s + r.trips * r.travelers * r.lodging * (r.days - 1)) 0) ∧
    (∀ (rates : List (String × ℚ)) (pd : ProjectData),
      calculateAllTotals rates pd =
          BoeGeneratorManager.calculateAllTotals rates pd ↔
        pd.travel.foldl
          (fun s r => s + r.trips * r.travelers * r.lodging * (r.days - 1)) 0 = 0) ∧
    (∀ (rates : List (String × ℚ)) (pd : ProjectData),
      (∀ r ∈ pd.travel, r.lodging = 0 ∨ r.days = 1) →
        calculateAllTotals rates pd =
          BoeGeneratorManager.calculateAllTotals rates pd) := by
  have hpt : ∀ r : TravelRow,
      r.trips * r.travelers * (r.airfare + r.lodging * r.days + r.per_diem * r.days) -
        r.trips * r.travelers * (r.airfare + r.lodging + r.days * r.per_diem) =
        r.trips * r.travelers * r.lodging * (r.days - 1) := by
    intro r; ring
  have hdiff : ∀ pd : ProjectData,
      pd.travel.foldl
          (fun s r => s + r.trips * r.travelers *
            (r.airfare + r.lodging * r.days + r.per_diem * r.days)) 0 -
        pd.travel.foldl
          (fun s r => s + r.trips * r.travelers *
            (r.airfare + r.lodging + r.days * r.per_diem)) 0 =
        pd.travel.foldl
          (fun s r => s + r.trips * r.travelers * r.lodging * (r.days - 1)) 0 :=
    fun pd => foldl_sum_sub _ _ _ hpt pd.travel
  have key : ∀ (rates : List (String × ℚ)) (pd : ProjectData),
      pd.travel.foldl
          (fun s r => s + r.trips * r.travelers * r.lodging * (r.days - 1)) 0 = 0 →
      calculateAllTotals rates pd =
        BoeGeneratorManager.calculateAllTotals rates pd := by
    intro rates pd hS0
    have htv :
        pd.travel.foldl
            (fun s r => s + r.trips * r.travelers *
              (r.airfare + r.lodging + r.days * r.per_diem)) 0 =
          pd.travel.foldl
            (fun s r => s + r.trips * r.travelers *
              (r.airfare + r.lodging * r.days + r.per_diem * r.days)) 0 := by
      have hd := hdiff pd
      rw [hS0] at hd
      linarith
    simp only [calculateAllTotals, BoeGeneratorManager.calculateAllTotals,
      OVERHEAD_RATE, GNA_RATE, FEE_RATE]
    rw [htv]
  refine ⟨fun rates pd => ⟨rfl, rfl, rfl⟩, fun rates pd => hdiff pd, ?_, ?_⟩
  · intro rates pd
    constructor
    · intro heq
      have hS : (BoeGeneratorManager.calculateAllTotals rates pd).travelCost -
          (calculateAllTotals rates pd).travelCost =
          pd.travel.foldl
            (fun s r => s + r.trips * r.travelers * r.lodging * (r.days - 1)) 0 :=
        hdiff pd
      rw [heq] at hS
      linarith
    · exact key rates pd
  · intro rates pd h
    refine key rates pd (foldl_sum_zero _ pd.travel ?_)
    intro r hr
    rcases h r hr with h0 | h1
    · rw [h0]; ring
    · rw [h1]; ring

/-- Witness for C10's amended theorem: a concrete project whose single
travel row is a 1-day stay, on which the two rollups coincide. -/
theorem C10_totals_amended_witness :
    calculateAllTotals [("Engineer", 120)]
        ⟨"P", "", "", [⟨"Design", [("Engineer", 40)]⟩], [],
          [⟨"kickoff", 2, 3, 1, 500, 150, 60⟩], []⟩ =
      BoeGeneratorManager.calculateAllTotals [("Engineer", 120)]
        ⟨"P", "", "", [⟨"Design", [("Engineer", 40)]⟩], [],
          [⟨"kickoff", 2, 3, 1, 500, 150, 60⟩], []⟩ :=
  C10_totals_amended.2.2.2 [("Engineer", 120)]
    ⟨"P", "", "", [⟨"Design", [("Engineer", 40)]⟩], [],
      [⟨"kickoff", 2, 3, 1, 500, 150, 60⟩], []⟩
    (by intro r hr; right; simp at hr; rw [hr])
